import Mathlib

/-!
Shallow embedding of `luigi/contrib/vertica.py`: the `VerticaTarget` marker
store (`touch`, `exists`, `connect`, `create_marker_table`) and the
`CopyToTable` bulk-load task (`map_column`, `copy`, `run`).

Modelling conventions:
* Python exceptions become an explicit `PyErr` value threaded through
  `Except`.
* Database effects are modelled two ways: the marker table is a concrete
  piece of state (`DBState`), while the outcome of the target-table copy
  attempts and the caller-supplied hooks (`init_copy`, `copy` via the
  driver, `post_copy`, `create_table` — all overridable subclass hooks
  whose bodies live outside this module) is given by an oracle
  (`CopyOracle`) indexed by the attempt number.
* Every database/driver interaction is recorded in a trace of `Event`s so
  that ordering and at-most-once properties can be stated; each function
  returns its trace even when it raises, mirroring the observable side
  effects a Python exception leaves behind.
-/

namespace Vertica

/-- Python exceptions that appear in `vertica.py`. -/
inductive PyErr where
  /-- `vertica_python.errors.MissingRelation` -/
  | missingRelation
  /-- `vertica_python.errors.DuplicateObject` -/
  | duplicateObject
  /-- any other database error, tagged by an abstract code -/
  | dbOther (code : Nat)
  /-- a generic Python `Exception(msg)` -/
  | exc (msg : String)
  /-- a failed `assert` -/
  | assertionFailed
  /-- Python `TypeError` -/
  | typeError
  /-- Python `IndexError` -/
  | indexError
  /-- Python `ValueError(msg)` (e.g. tuple unpacking) -/
  | valueError (msg : String)
deriving DecidableEq, Repr

/-- Python field values that flow through `rows()` / `map_column`. -/
inductive Value where
  | pyNone
  | str (s : String)
  | int (n : Int)
deriving DecidableEq, Repr

/-- Python `six.text_type(value)` (i.e. `str(value)`). -/
def Value.render : Value → String
  | .pyNone => "None"
  | .str s => s
  | .int n => toString n

/-- An element of the `columns` attribute: either a plain column-name
string or a tuple of strings (the documented shape being a 2-tuple
`(name, type)`). -/
inductive Col where
  | str (s : String)
  | tup (elems : List String)
deriving DecidableEq, Repr

/-- Python `repr` of a `Col`, used in the `columns` shape error message. -/
def pyReprCol : Col → String
  | .str s => "'" ++ s ++ "'"
  | .tup [] => "()"
  | .tup [x] => "('" ++ x ++ "',)"
  | .tup (x :: xs) =>
      "('" ++ x ++ "'" ++ String.join (xs.map (fun y => ", '" ++ y ++ "'")) ++ ")"

/-- The `inserted` column of a marker row: database-generated `NOW()` or a
client-supplied `datetime.datetime.now()` value (abstracted as a `Nat`). -/
inductive Timestamp where
  | dbNow
  | client (t : Nat)
deriving DecidableEq, Repr

/-- One row of the marker table. -/
structure MarkerRow where
  update_id : String
  target_table : String
  inserted : Timestamp
deriving DecidableEq, Repr

/-- The database state the marker store interacts with.
`marker = none` means the marker table does not exist (queries against it
raise `MissingRelation`); `marker = some rows` is its contents.
`ddlFault` optionally injects a failure into the `CREATE TABLE` DDL of
`create_marker_table`, standing for the database rejecting the statement
(a `ddlFault` of `duplicateObject` is how a concurrently created table
shows up). -/
structure DBState where
  marker : Option (List MarkerRow)
  ddlFault : Option PyErr := none
deriving DecidableEq, Repr

/-- The arguments handed to `vertica_python.connect`. -/
structure ConnectArgs where
  host : String
  port : Option String
  database : String
  user : String
  password : String
deriving DecidableEq, Repr

/-- Observable driver/database interactions, in program order. -/
inductive Event where
  /-- `self.output().connect()` in `run` -/
  | connect
  /-- one `tmp_file.write(rowstr.encode('utf-8'))` -/
  | stageRow (bytes : List UInt8)
  /-- `tmp_file.seek(0)` -/
  | seekStart
  /-- `connection.cursor()` inside the attempt loop -/
  | newCursor
  /-- the `self.init_copy(connection)` hook ran -/
  | initCopy
  /-- `cursor.copy(sql, file)` was issued with the staged bytes -/
  | execCopy (sql : String) (data : List UInt8)
  /-- the `self.post_copy(connection)` hook ran -/
  | postCopy
  /-- `connection.reset_connection()` -/
  | resetConnection
  /-- the caller-supplied `self.create_table(connection)` ran -/
  | createTable
  /-- `create_marker_table` opened its own fresh connection -/
  | freshConnection
  /-- a DDL statement executed on that fresh connection -/
  | execDDL (sql : String)
  /-- the marker `INSERT` was issued -/
  | insertMarker (update_id : String) (target_table : String) (inserted : Timestamp)
  /-- `connection.commit()` -/
  | commit
  /-- the `SELECT 1 FROM marker WHERE update_id = ... LIMIT 1` probe -/
  | selectMarker (update_id : String)
deriving DecidableEq, Repr

/-- The `VerticaTarget` object after `__init__` ran. -/
structure VerticaTarget where
  host : String
  port : Option String
  database : String
  user : String
  password : String
  table : String
  update_id : String
  marker_table : String
  use_db_timestamps : Bool
deriving DecidableEq, Repr

/-- Python `str.split` with a one-character separator, written over the
character list of the string (so `"a:1:2".split(':') = ["a","1","2"]`,
`"".split(':') = [""]`, `"a:".split(':') = ["a",""]`). -/
def pySplitChar (sep : Char) : List Char → List String
  | [] => [""]
  | c :: cs =>
      match pySplitChar sep cs with
      | [] => [""]
      | r :: rs =>
          if c = sep then "" :: r :: rs
          else (String.singleton c ++ r) :: rs

/-- `VerticaTarget.__init__`: when `':' in host`, Python runs
`self.host, self.port = host.split(':')` — tuple unpacking, which raises
`ValueError` unless the split has exactly two parts; otherwise the `host`
and `port` arguments are stored unchanged. -/
def VerticaTarget.init (host database user password table update_id : String)
    (port : Option String) (marker_table : String) (use_db_timestamps : Bool) :
    Except PyErr VerticaTarget :=
  if host.data.contains ':' then
    match pySplitChar ':' host.data with
    | [h, p] =>
        .ok { host := h, port := some p, database, user, password, table,
              update_id, marker_table, use_db_timestamps }
    | _ => .error (.valueError "too many values to unpack (expected 2)")
  else
    .ok { host, port, database, user, password, table, update_id,
          marker_table, use_db_timestamps }

/-- `VerticaTarget.connect`: the arguments passed to
`vertica_python.connect`. -/
def VerticaTarget.connect (t : VerticaTarget) : ConnectArgs :=
  { host := t.host, port := t.port, database := t.database, user := t.user,
    password := t.password }

/-- The `CREATE TABLE` DDL built by `create_marker_table`, by timestamp
mode. -/
def create_marker_table_sql (marker_table : String) (use_db_timestamps : Bool) :
    String :=
  if use_db_timestamps then
    "CREATE TABLE " ++ marker_table ++ " (" ++
      "update_id VARCHAR PRIMARY KEY, " ++
      "target_table VARCHAR, " ++
      "inserted TIMESTAMP DEFAULT NOW()" ++
      ")"
  else
    "CREATE TABLE " ++ marker_table ++ " (" ++
      "update_id VARCHAR PRIMARY KEY, " ++
      "target_table VARCHAR, " ++
      "inserted TIMESTAMP" ++
      ")"

/-- Semantics of `SELECT 1 FROM marker WHERE update_id = :uid LIMIT 1`
followed by `fetchone()`: raises `MissingRelation` when the marker table
is absent, otherwise returns the first matching row (or `none`). -/
def selectMarkerRow (db : DBState) (uid : String) :
    Except PyErr (Option MarkerRow) :=
  match db.marker with
  | Option.none => .error .missingRelation
  | some rows => .ok (rows.find? (fun r => r.update_id == uid))

/-- `VerticaTarget.exists`: runs the marker `SELECT`; a `MissingRelation`
from the query is caught and treated as `row = None`; the result is
`row is not None`. -/
def VerticaTarget.exists (t : VerticaTarget) (db : DBState) :
    Except PyErr Bool × List Event :=
  let ev := [Event.selectMarker t.update_id]
  match selectMarkerRow db t.update_id with
  | .ok row => (.ok row.isSome, ev)
  | .error .missingRelation => (.ok false, ev)
  | .error e => (.error e, ev)

/-- Semantics of executing the marker-table `CREATE TABLE`: an injected
`ddlFault` is raised as-is; otherwise creating an existing table raises
`DuplicateObject`, and creating an absent one makes it exist (empty). -/
def execCreateMarker (db : DBState) : Except PyErr DBState :=
  match db.ddlFault with
  | some e => .error e
  | Option.none =>
      match db.marker with
      | some _ => .error .duplicateObject
      | Option.none => .ok { db with marker := some [] }

/-- `VerticaTarget.create_marker_table`: on a fresh connection of its own,
issue the `CREATE TABLE` DDL for the configured timestamp mode;
`DuplicateObject` is swallowed (`pass`), anything else propagates. -/
def VerticaTarget.create_marker_table (t : VerticaTarget) (db : DBState) :
    Except PyErr DBState × List Event :=
  let sql := create_marker_table_sql t.marker_table t.use_db_timestamps
  let ev := [Event.freshConnection, Event.execDDL sql]
  match execCreateMarker db with
  | .ok db' => (.ok db', ev)
  | .error .duplicateObject => (.ok db, ev)
  | .error e => (.error e, ev)

/-- Semantics of the marker `INSERT`: raises `MissingRelation` when the
marker table is absent, otherwise appends the row. -/
def insertMarkerRow (db : DBState) (row : MarkerRow) : Except PyErr DBState :=
  match db.marker with
  | Option.none => .error .missingRelation
  | some rows => .ok { db with marker := some (rows ++ [row]) }

/-- `VerticaTarget.touch`: `create_marker_table()` first (own connection),
then the marker `INSERT` on the given connection (two or three columns
depending on `use_db_timestamps`; `now` stands for
`datetime.datetime.now()`), then `commit()`, then `assert self.exists(connection)`. -/
def VerticaTarget.touch (t : VerticaTarget) (now : Nat) (db : DBState) :
    Except PyErr DBState × List Event :=
  match t.create_marker_table db with
  | (.error e, ev) => (.error e, ev)
  | (.ok db1, ev1) =>
      let ts : Timestamp := if t.use_db_timestamps then .dbNow else .client now
      let row : MarkerRow :=
        { update_id := t.update_id, target_table := t.table, inserted := ts }
      let ev2 := ev1 ++ [Event.insertMarker t.update_id t.table ts]
      match insertMarkerRow db1 row with
      | .error e => (.error e, ev2)
      | .ok db2 =>
          let ev3 := ev2 ++ [Event.commit]
          match t.exists db2 with
          | (.ok b, ev4) =>
              if b then (.ok db2, ev3 ++ ev4)
              else (.error .assertionFailed, ev3 ++ ev4)
          | (.error e, ev4) => (.error e, ev3 ++ ev4)

/-- The attributes of a `CopyToTable` task relevant to a load (`host` …
`password` feed `output()`; `table`, `columns`, `column_separator`,
`null_values`, `update_id` feed the load itself; `marker_table` and
`use_db_timestamps` configure the produced `VerticaTarget`). -/
structure TaskSpec where
  host : String
  database : String
  user : String
  password : String
  table : String
  columns : List Col
  column_separator : String
  null_values : List Value
  update_id : String
  marker_table : String
  use_db_timestamps : Bool
deriving DecidableEq, Repr

/-- `CopyToTable.map_column`: empty string for values in `null_values`,
otherwise `six.text_type(value)`. -/
def map_column (null_values : List Value) (value : Value) : String :=
  if value ∈ null_values then "" else value.render

/-- One staged line:
`self.column_separator.join(self.map_column(val) for val in row) + "\n"`. -/
def rowLine (t : TaskSpec) (row : List Value) : String :=
  String.intercalate t.column_separator (row.map (map_column t.null_values)) ++ "\n"

/-- The bytes one `tmp_file.write(rowstr.encode('utf-8'))` appends. -/
def rowBytes (t : TaskSpec) (row : List Value) : List UInt8 :=
  (rowLine t row).toUTF8.data.toList

/-- The staging loop of `run`: iterate over `rows()`, writing each encoded
line into the temporary file (the accumulated buffer) and recording one
`stageRow` event per write. -/
def stageRows (t : TaskSpec) (rows : List (List Value)) :
    List UInt8 × List Event :=
  rows.foldl
    (fun acc row =>
      (acc.1 ++ rowBytes t row, acc.2 ++ [Event.stageRow (rowBytes t row)]))
    ([], [])

/-- Python `c[0]` on a `columns` element: first element of a tuple, first
character of a string; `IndexError` when empty. -/
def col0 : Col → Except PyErr String
  | .str s =>
      match s.data with
      | [] => .error .indexError
      | c :: _ => .ok (String.singleton c)
  | .tup [] => .error .indexError
  | .tup (x :: _) => .ok x

/-- The column-name extraction at the top of `CopyToTable.copy`:
`columns` when `columns[0]` is a string (the later `','.join` raises
`TypeError` if any element is not a string), `[c[0] for c in columns]`
when `columns[0]` is a 2-tuple, and
`Exception('columns must consist of …')` otherwise. -/
def copyNames (columns : List Col) : Except PyErr (List String) :=
  match columns.head? with
  | Option.none => .error .indexError
  | some (Col.str _) =>
      if columns.all (fun c => match c with | .str _ => true | .tup _ => false)
      then .ok (columns.map (fun c => match c with | .str s => s | .tup _ => ""))
      else .error .typeError
  | some (Col.tup l) =>
      if l.length = 2 then
        columns.mapM col0
      else
        .error (.exc ("columns must consist of column strings or " ++
          "(column string, type string) tuples (was " ++ pyReprCol (Col.tup l) ++ " ...)"))

/-- The `COPY` statement `CopyToTable.copy` issues. -/
def copySql (t : TaskSpec) (names : List String) : String :=
  "COPY " ++ t.table ++ " (" ++ String.intercalate "," names ++
    ") FROM STDIN DELIMITER '" ++ t.column_separator ++ "' "

/-- Outcomes of the abstract operations `run` invokes: the overridable
hooks `init_copy`/`post_copy`, the driver's `cursor.copy` against the
target table, and the caller-supplied `create_table`. Each is indexed by
the attempt number (0 = first try, 1 = retry); `none` means the call
returns normally, `some e` that it raises `e`. -/
structure CopyOracle where
  init_copy : Nat → Option PyErr
  copy : Nat → Option PyErr
  post_copy : Nat → Option PyErr
  create_table : Option PyErr

/-- `CopyToTable.copy cursor tmp_file` on attempt `k`: validate/extract the
column names, then issue the `COPY` statement (whose outcome `orc.copy k`
gives). The `execCopy` event records the statement and the staged bytes. -/
def copyCall (t : TaskSpec) (buf : List UInt8) (orc : CopyOracle) (k : Nat) :
    Except PyErr Unit × List Event :=
  match copyNames t.columns with
  | .error e => (.error e, [])
  | .ok names =>
      let sql := copySql t names
      match orc.copy k with
      | Option.none => (.ok (), [Event.execCopy sql buf])
      | some e => (.error e, [Event.execCopy sql buf])

/-- The body of one iteration of the attempt loop in `run`:
`cursor = connection.cursor(); self.init_copy(connection);
self.copy(cursor, tmp_file); self.post_copy(connection)`. -/
def attemptBody (t : TaskSpec) (buf : List UInt8) (orc : CopyOracle) (k : Nat) :
    Except PyErr Unit × List Event :=
  let ev0 := [Event.newCursor, Event.initCopy]
  match orc.init_copy k with
  | some e => (.error e, ev0)
  | Option.none =>
      match copyCall t buf orc k with
      | (.error e, ev1) => (.error e, ev0 ++ ev1)
      | (.ok _, ev1) =>
          let ev2 := ev0 ++ ev1 ++ [Event.postCopy]
          match orc.post_copy k with
          | some e => (.error e, ev2)
          | Option.none => (.ok (), ev2)

/-- The `for attempt in range(2)` loop of `run`: a `MissingRelation` on
attempt 0 triggers `connection.reset_connection()` and
`self.create_table(connection)` and the loop moves to attempt 1; a
`MissingRelation` on attempt 1 is re-raised; any other exception
propagates uncaught; success breaks out. -/
def attemptLoop (t : TaskSpec) (buf : List UInt8) (orc : CopyOracle) :
    Except PyErr Unit × List Event :=
  match attemptBody t buf orc 0 with
  | (.ok _, ev) => (.ok (), ev)
  | (.error e, ev) =>
      if e = .missingRelation then
        let ev1 := ev ++ [Event.resetConnection, Event.createTable]
        match orc.create_table with
        | some e2 => (.error e2, ev1)
        | Option.none =>
            match attemptBody t buf orc 1 with
            | (.ok _, ev2) => (.ok (), ev1 ++ ev2)
            | (.error e3, ev2) => (.error e3, ev1 ++ ev2)
      else (.error e, ev)

/-- `CopyToTable.output()`: builds the `VerticaTarget` (no `port`
argument). -/
def output (t : TaskSpec) : Except PyErr VerticaTarget :=
  VerticaTarget.init t.host t.database t.user t.password t.table t.update_id
    Option.none t.marker_table t.use_db_timestamps

/-- `CopyToTable.run`: guard on `table`/`columns` truthiness, open the
connection, stage all rows into the temporary file, rewind, run the
attempt loop, and finally `self.output().touch(connection)`. -/
def run (t : TaskSpec) (rows : List (List Value)) (orc : CopyOracle)
    (now : Nat) (db : DBState) : Except PyErr DBState × List Event :=
  if t.table = "" ∨ t.columns = [] then
    (.error (.exc "table and columns need to be specified"), [])
  else
    match output t with
    | .error e => (.error e, [])
    | .ok tgt =>
        let st := stageRows t rows
        let ev1 := Event.connect :: st.2 ++ [Event.seekStart]
        match attemptLoop t st.1 orc with
        | (.error e, ev2) => (.error e, ev1 ++ ev2)
        | (.ok _, ev2) =>
            match tgt.touch now db with
            | (.ok db', ev3) => (.ok db', ev1 ++ ev2 ++ ev3)
            | (.error e, ev3) => (.error e, ev1 ++ ev2 ++ ev3)

/-- The staged buffer as the specification describes it: the
concatenation, in row order, of the UTF-8 encoding of (the
`column_separator`-join of the per-field mapping, followed by a newline),
where a field in `null_values` maps to the empty string and any other
field to its text rendering. -/
def stagedSpec (t : TaskSpec) (rows : List (List Value)) : List UInt8 :=
  (rows.map (fun row =>
    ((String.intercalate t.column_separator
        (row.map (fun v => if v ∈ t.null_values then "" else v.render)))
      ++ "\n").toUTF8.data.toList)).flatten

/-- Reference UTF-8 decoder (RFC 3629) for one scalar value, used to state
that the staging encoding round-trips; returns the decoded character and
the remaining bytes. -/
def utf8DecodeOne : List UInt8 → Option (Char × List UInt8)
  | [] => Option.none
  | b :: rest =>
      if b &&& 0x80 == 0 then
        some (Char.ofNat b.toNat, rest)
      else if b &&& 0xe0 == 0xc0 then
        match rest with
        | b1 :: rest1 =>
            if b1 &&& 0xc0 == 0x80 then
              let r := ((b.toNat &&& 0x1f) <<< 6) ||| (b1.toNat &&& 0x3f)
              if 0x80 ≤ r then some (Char.ofNat r, rest1) else Option.none
            else Option.none
        | _ => Option.none
      else if b &&& 0xf0 == 0xe0 then
        match rest with
        | b1 :: b2 :: rest2 =>
            if (b1 &&& 0xc0 == 0x80) && (b2 &&& 0xc0 == 0x80) then
              let r := ((b.toNat &&& 0x0f) <<< 12) |||
                       ((b1.toNat &&& 0x3f) <<< 6) ||| (b2.toNat &&& 0x3f)
              if 0x800 ≤ r ∧ (r < 0xd800 ∨ 0xdfff < r) then
                some (Char.ofNat r, rest2)
              else Option.none
            else Option.none
        | _ => Option.none
      else if b &&& 0xf8 == 0xf0 then
        match rest with
        | b1 :: b2 :: b3 :: rest3 =>
            if (b1 &&& 0xc0 == 0x80) && (b2 &&& 0xc0 == 0x80) &&
               (b3 &&& 0xc0 == 0x80) then
              let r := ((b.toNat &&& 0x07) <<< 18) |||
                       ((b1.toNat &&& 0x3f) <<< 12) |||
                       ((b2.toNat &&& 0x3f) <<< 6) ||| (b3.toNat &&& 0x3f)
              if 0x10000 ≤ r ∧ r < 0x110000 then some (Char.ofNat r, rest3)
              else Option.none
            else Option.none
        | _ => Option.none
      else Option.none

/-- Fuelled driver for `utf8DecodeOne` over a whole byte list. -/
def utf8DecodeList : Nat → List UInt8 → Option (List Char)
  | _, [] => some []
  | 0, _ :: _ => Option.none
  | fuel + 1, b :: rest =>
      match utf8DecodeOne (b :: rest) with
      | Option.none => Option.none
      | some (c, rest1) => (utf8DecodeList fuel rest1).map (fun cs => c :: cs)

/-- Decode a whole UTF-8 byte list back into a string. -/
def decodeUtf8 (l : List UInt8) : Option String :=
  (utf8DecodeList l.length l).map (fun cs => String.mk cs)

/-! Helper lemmas -/

/-- Unfolding the staging fold: the buffer is the flattened per-row
encodings, and the events are one `stageRow` per row, in order. -/
theorem stageRows_go (t : TaskSpec) (rows : List (List Value))
    (acc : List UInt8 × List Event) :
    rows.foldl
      (fun acc row =>
        (acc.1 ++ rowBytes t row, acc.2 ++ [Event.stageRow (rowBytes t row)]))
      acc =
      (acc.1 ++ (rows.map (rowBytes t)).flatten,
       acc.2 ++ rows.map (fun r => Event.stageRow (rowBytes t r))) := by
  induction rows generalizing acc with
  | nil => simp
  | cons r rs ih => simp [List.foldl_cons, ih]

theorem stageRows_eq (t : TaskSpec) (rows : List (List Value)) :
    stageRows t rows =
      ((rows.map (rowBytes t)).flatten,
       rows.map (fun r => Event.stageRow (rowBytes t r))) := by
  simpa [stageRows] using stageRows_go t rows ([], [])

/-- Events that write to the marker table: the marker `INSERT` and the
`commit` that would make it durable. -/
def isMarkerWrite : Event → Bool
  | .insertMarker _ _ _ => true
  | .commit => true
  | _ => false

/-- The possible traces of one attempt body. -/
theorem attemptBody_trace (t : TaskSpec) (buf : List UInt8)
    (orc : CopyOracle) (k : Nat) :
    (attemptBody t buf orc k).2 = [Event.newCursor, Event.initCopy] ∨
    (∃ sql, (attemptBody t buf orc k).2 =
      [Event.newCursor, Event.initCopy, Event.execCopy sql buf]) ∨
    (∃ sql, (attemptBody t buf orc k).2 =
      [Event.newCursor, Event.initCopy, Event.execCopy sql buf, Event.postCopy]) := by
  unfold attemptBody copyCall
  cases orc.init_copy k with
  | some e => left; rfl
  | none =>
    cases copyNames t.columns with
    | error e => left; rfl
    | ok names =>
      cases orc.copy k with
      | some e => right; left; exact ⟨_, rfl⟩
      | none =>
        cases orc.post_copy k with
        | some e => right; right; exact ⟨_, rfl⟩
        | none => right; right; exact ⟨_, rfl⟩

theorem attemptBody_no_marker (t : TaskSpec) (buf : List UInt8)
    (orc : CopyOracle) (k : Nat) :
    ∀ e ∈ (attemptBody t buf orc k).2, isMarkerWrite e = false := by
  intro e he
  rcases attemptBody_trace t buf orc k with h | ⟨sql, h⟩ | ⟨sql, h⟩ <;>
    rw [h] at he <;> simp only [List.mem_cons, List.not_mem_nil, or_false] at he
  · rcases he with rfl | rfl <;> rfl
  · rcases he with rfl | rfl | rfl <;> rfl
  · rcases he with rfl | rfl | rfl | rfl <;> rfl

/-- The possible traces of the attempt loop. -/
theorem attemptLoop_trace (t : TaskSpec) (buf : List UInt8)
    (orc : CopyOracle) :
    (attemptLoop t buf orc).2 = (attemptBody t buf orc 0).2 ∨
    (attemptLoop t buf orc).2 =
      (attemptBody t buf orc 0).2 ++ [Event.resetConnection, Event.createTable] ∨
    (attemptLoop t buf orc).2 =
      (attemptBody t buf orc 0).2 ++ [Event.resetConnection, Event.createTable]
        ++ (attemptBody t buf orc 1).2 := by
  unfold attemptLoop
  rcases h0 : attemptBody t buf orc 0 with ⟨r0, ev0⟩
  cases r0 with
  | ok u => left; rfl
  | error e =>
    by_cases he : e = PyErr.missingRelation
    · simp only [he, if_pos rfl]
      cases orc.create_table with
      | some e2 => right; left; rfl
      | none =>
        rcases h1 : attemptBody t buf orc 1 with ⟨r1, ev1⟩
        cases r1 with
        | ok u => right; right; simp
        | error e3 => right; right; simp
    · refine Or.inl ?_
      dsimp only
      rw [if_neg he]

theorem attemptLoop_no_marker (t : TaskSpec) (buf : List UInt8)
    (orc : CopyOracle) :
    ∀ e ∈ (attemptLoop t buf orc).2, isMarkerWrite e = false := by
  intro e he
  rcases attemptLoop_trace t buf orc with h | h | h <;> rw [h] at he
  · exact attemptBody_no_marker t buf orc 0 e he
  · simp only [List.mem_append, List.mem_cons, List.not_mem_nil, or_false] at he
    rcases he with he | rfl | rfl
    · exact attemptBody_no_marker t buf orc 0 e he
    · rfl
    · rfl
  · simp only [List.mem_append, List.mem_cons, List.not_mem_nil, or_false] at he
    rcases he with (he | rfl | rfl) | he
    · exact attemptBody_no_marker t buf orc 0 e he
    · rfl
    · rfl
    · exact attemptBody_no_marker t buf orc 1 e he

theorem stageRows_no_marker (t : TaskSpec) (rows : List (List Value)) :
    ∀ e ∈ (stageRows t rows).2, isMarkerWrite e = false := by
  intro e he
  rw [stageRows_eq] at he
  simp only [List.mem_map] at he
  obtain ⟨r, _, rfl⟩ := he
  rfl

/-- The trace of `create_marker_table` is the same on every branch. -/
theorem create_marker_table_trace (t : VerticaTarget) (db : DBState) :
    (t.create_marker_table db).2 =
      [Event.freshConnection,
       Event.execDDL (create_marker_table_sql t.marker_table t.use_db_timestamps)] := by
  unfold VerticaTarget.create_marker_table
  repeat split
  all_goals rfl

def isResetEvent : Event → Bool
  | .resetConnection => true
  | _ => false

def isCreateTableEvent : Event → Bool
  | .createTable => true
  | _ => false

def isInitCopyEvent : Event → Bool
  | .initCopy => true
  | _ => false

def isExecCopyEvent : Event → Bool
  | .execCopy _ _ => true
  | _ => false

def isPostCopyEvent : Event → Bool
  | .postCopy => true
  | _ => false

/-- Events produced only by the copy attempt loop. -/
def isLoaderEvent : Event → Bool
  | .resetConnection => true
  | .createTable => true
  | .newCursor => true
  | .initCopy => true
  | .execCopy _ _ => true
  | .postCopy => true
  | _ => false

/-- `exists` always returns normally, with exactly the `SELECT` probe in
its trace. -/
theorem exists_parts (t : VerticaTarget) (db : DBState) :
    ∃ b, t.exists db = (.ok b, [Event.selectMarker t.update_id]) := by
  unfold VerticaTarget.exists selectMarkerRow
  cases db.marker with
  | none => exact ⟨false, rfl⟩
  | some rows => exact ⟨_, rfl⟩

/-- The possible traces of `touch`. -/
theorem touch_trace_cases (t : VerticaTarget) (now : Nat) (db : DBState) :
    (t.touch now db).2 = (t.create_marker_table db).2 ∨
    (t.touch now db).2 = (t.create_marker_table db).2 ++
      [Event.insertMarker t.update_id t.table
        (if t.use_db_timestamps then Timestamp.dbNow else Timestamp.client now)] ∨
    (t.touch now db).2 = (t.create_marker_table db).2 ++
      [Event.insertMarker t.update_id t.table
        (if t.use_db_timestamps then Timestamp.dbNow else Timestamp.client now),
       Event.commit, Event.selectMarker t.update_id] := by
  unfold VerticaTarget.touch
  rcases hc : t.create_marker_table db with ⟨rc, evc⟩
  cases rc with
  | error e => left; rfl
  | ok db1 =>
      dsimp only
      cases hm : db1.marker with
      | none =>
          right; left
          simp only [insertMarkerRow, hm]
      | some rows1 =>
          right; right
          simp only [insertMarkerRow, hm]
          obtain ⟨b, hb⟩ :=
            exists_parts t { db1 with marker := some (rows1 ++
              [{ update_id := t.update_id, target_table := t.table,
                 inserted := if t.use_db_timestamps then Timestamp.dbNow
                   else Timestamp.client now }]) }
          rw [hb]
          cases b <;> simp

/-- Every event of a `touch` trace is a marker-store event, never a
copy-loop event. -/
theorem touch_no_loader (t : VerticaTarget) (now : Nat) (db : DBState) :
    ∀ e ∈ (t.touch now db).2, isLoaderEvent e = false := by
  intro e he
  rcases touch_trace_cases t now db with h | h | h <;>
    rw [h, create_marker_table_trace] at he <;>
    simp only [List.mem_append, List.mem_cons, List.not_mem_nil, or_false] at he
  · rcases he with rfl | rfl <;> rfl
  · rcases he with (rfl | rfl) | rfl <;> rfl
  · rcases he with (rfl | rfl) | rfl | rfl | rfl <;> rfl

theorem stage_no_loader (t : TaskSpec) (rows : List (List Value)) :
    ∀ e ∈ (stageRows t rows).2, isLoaderEvent e = false := by
  intro e he
  rw [stageRows_eq] at he
  simp only [List.mem_map] at he
  obtain ⟨r, _, rfl⟩ := he
  rfl

/-- `countP` vanishes on a list all of whose members fail the predicate. -/
theorem countP_zero_of_forall {p : Event → Bool} {l : List Event}
    (h : ∀ e ∈ l, p e = false) : l.countP p = 0 := by
  induction l with
  | nil => rfl
  | cons a l ih =>
      rw [List.countP_cons, ih (fun e he => h e (List.mem_cons_of_mem a he)),
        h a (List.mem_cons_self a l)]
      rfl

/-- If the marker table holds a row carrying the target's `update_id`,
`exists` answers `true`. -/
theorem exists_of_mem (t : VerticaTarget) (db : DBState)
    (rows : List MarkerRow) (hdb : db.marker = some rows)
    (hmem : ∃ r ∈ rows, r.update_id = t.update_id) :
    (t.exists db).1 = .ok true := by
  obtain ⟨r, hr, hid⟩ := hmem
  simp [VerticaTarget.exists, selectMarkerRow, hdb]
  exact ⟨r, hr, hid⟩

/-! Concrete fixtures used by witnesses and counterexamples -/

deriving instance DecidableEq for Except

/-- A concrete task mirroring the repository's integration-test task. -/
def sampleTask : TaskSpec :=
  { host := "localhost", database := "vertica", user := "dbadmin",
    password := "", table := "test_table",
    columns := [Col.tup ["test_text", "varchar"], Col.tup ["test_int", "int"]],
    column_separator := "\t", null_values := [Value.pyNone],
    update_id := "update1", marker_table := "table_updates",
    use_db_timestamps := true }

/-- An environment in which every hook and every copy succeeds. -/
def allOkOracle : CopyOracle :=
  { init_copy := fun _ => Option.none, copy := fun _ => Option.none,
    post_copy := fun _ => Option.none, create_table := Option.none }

/-- The target table stays missing even after `create_table`. -/
def alwaysMissingOracle : CopyOracle :=
  { allOkOracle with copy := fun _ => some PyErr.missingRelation }

/-- A database in which the marker table does not exist yet. -/
def emptyDB : DBState := { marker := Option.none }

/-- The `VerticaTarget` that `sampleTask.output()` produces. -/
def sampleTarget : VerticaTarget :=
  { host := "localhost", port := Option.none, database := "vertica",
    user := "dbadmin", password := "", table := "test_table",
    update_id := "update1", marker_table := "table_updates",
    use_db_timestamps := true }

/-! Claims -/

/-- Claim C10: for every `CopyToTable` task whose `table` or `columns` attribute
is empty (falsy), `run` raises `Exception("table and columns need to be
specified")` immediately: the result is exactly that error with an empty
trace, so no connection is opened, no row is staged, and no statement is
executed. -/
theorem C10_empty_table_or_columns_guard (t : TaskSpec)
    (rows : List (List Value)) (orc : CopyOracle) (now : Nat) (db : DBState)
    (h : t.table = "" ∨ t.columns = []) :
    run t rows orc now db =
      (.error (.exc "table and columns need to be specified"), []) := by
  unfold run
  rw [if_pos h]

theorem C10_empty_table_or_columns_guard_witness :
    run { sampleTask with table := "" } [] allOkOracle 0 emptyDB =
      (.error (.exc "table and columns need to be specified"), []) :=
  C10_empty_table_or_columns_guard { sampleTask with table := "" } []
    allOkOracle 0 emptyDB (Or.inl rfl)

/-- Claim C4: `exists` answers `true` exactly when the marker table holds a row
with the target's `update_id`, and when the marker table itself is absent
(the query raises `MissingRelation`) it answers `false` instead of
raising. -/
theorem C4_exists_semantics (t : VerticaTarget) (db : DBState) :
    ((t.exists db).1 = .ok true ↔
      ∃ rows, db.marker = some rows ∧ ∃ r ∈ rows, r.update_id = t.update_id) ∧
    (db.marker = Option.none → (t.exists db).1 = .ok false) := by
  constructor
  · cases hm : db.marker with
    | none => simp [VerticaTarget.exists, selectMarkerRow, hm]
    | some rows =>
        simp [VerticaTarget.exists, selectMarkerRow, hm, List.find?_isSome]
  · intro hm
    simp [VerticaTarget.exists, selectMarkerRow, hm]

theorem C4_exists_semantics_witness :
    (sampleTarget.exists emptyDB).1 = .ok false :=
  (C4_exists_semantics sampleTarget emptyDB).2 rfl

/-- Claim C5: `create_marker_table` runs on a fresh connection of its own,
issuing exactly the marker `CREATE TABLE` DDL (with
`inserted TIMESTAMP DEFAULT NOW()` when `use_db_timestamps`, plain
`inserted TIMESTAMP` otherwise); an already-existing marker table — or an
injected `DuplicateObject` — is swallowed and treated as success, and any
other DDL error propagates. -/
theorem C5_create_marker_table_ddl (t : VerticaTarget) (db : DBState) :
    (t.create_marker_table db).2 =
      [Event.freshConnection,
       Event.execDDL (create_marker_table_sql t.marker_table t.use_db_timestamps)] ∧
    create_marker_table_sql t.marker_table true =
      "CREATE TABLE " ++ t.marker_table ++
        " (update_id VARCHAR PRIMARY KEY, target_table VARCHAR, inserted TIMESTAMP DEFAULT NOW())" ∧
    create_marker_table_sql t.marker_table false =
      "CREATE TABLE " ++ t.marker_table ++
        " (update_id VARCHAR PRIMARY KEY, target_table VARCHAR, inserted TIMESTAMP)" ∧
    (db.ddlFault = Option.none → db.marker.isSome →
      (t.create_marker_table db).1 = .ok db) ∧
    (db.ddlFault = some PyErr.duplicateObject →
      (t.create_marker_table db).1 = .ok db) ∧
    (∀ e, db.ddlFault = some e → e ≠ PyErr.duplicateObject →
      (t.create_marker_table db).1 = .error e) := by
  refine ⟨create_marker_table_trace t db, ?_, ?_, ?_, ?_, ?_⟩
  · simp only [create_marker_table_sql, if_true]
    simp only [String.append_assoc]
    congr 1
  · simp only [create_marker_table_sql, Bool.false_eq_true, if_false]
    simp only [String.append_assoc]
    congr 1
  · intro hf hm
    obtain ⟨rows, hrows⟩ := Option.isSome_iff_exists.mp hm
    simp [VerticaTarget.create_marker_table, execCreateMarker, hf, hrows]
  · intro hf
    simp [VerticaTarget.create_marker_table, execCreateMarker, hf]
  · intro e hf hne
    unfold VerticaTarget.create_marker_table execCreateMarker
    rw [hf]
    cases e <;> simp_all

theorem C5_create_marker_table_ddl_witness :
    (sampleTarget.create_marker_table emptyDB).1 = .ok emptyDB ∨
    (sampleTarget.create_marker_table
      { marker := some [], ddlFault := some PyErr.duplicateObject }).1 =
        .ok { marker := some [], ddlFault := some PyErr.duplicateObject } :=
  Or.inr ((C5_create_marker_table_ddl sampleTarget
    { marker := some [], ddlFault := some PyErr.duplicateObject }).2.2.2.2.1 rfl)

/-- Claim C9 as stated is false at a host with two `':'` separators: the
constructor raises `ValueError` from the tuple unpacking of
`host.split(':')` instead of splitting into a host part and a port
part. -/
theorem C9_counterexample :
    VerticaTarget.init "a:1:2" "db" "u" "pw" "tbl" "uid" Option.none
      "table_updates" true =
      .error (.valueError "too many values to unpack (expected 2)") := rfl

/-- Claim C9 (amended): for every host string containing a `':'` whose split has
exactly two parts, the constructor stores the part before the `':'` as
`host` and the part after it as `port`, and `connect` passes exactly those
to `vertica_python.connect`. -/
theorem C9_host_port_split (host database user password table update_id : String)
    (port : Option String) (marker_table : String) (use_db : Bool)
    (h p : String) (hcontains : host.data.contains ':' = true)
    (hsplit : pySplitChar ':' host.data = [h, p]) :
    ∃ tgt, VerticaTarget.init host database user password table update_id port
        marker_table use_db = .ok tgt ∧
      tgt.host = h ∧ tgt.port = some p ∧
      tgt.connect =
        { host := h, port := some p, database, user, password } := by
  unfold VerticaTarget.init
  rw [if_pos hcontains, hsplit]
  exact ⟨_, rfl, rfl, rfl, rfl⟩

theorem C9_host_port_split_witness :
    ∃ tgt, VerticaTarget.init "example.com:5433" "db" "u" "pw" "tbl" "uid"
        Option.none "table_updates" true = .ok tgt ∧
      tgt.host = "example.com" ∧ tgt.port = some "5433" ∧
      tgt.connect = { host := "example.com", port := some "5433",
                      database := "db", user := "u", password := "pw" } :=
  C9_host_port_split "example.com:5433" "db" "u" "pw" "tbl" "uid"
    Option.none "table_updates" true "example.com" "5433" rfl rfl

/-- Claim C6: for every finite row sequence, the staged buffer equals the
concatenation, in row order, of the UTF-8 encoding of (the
`column_separator`-join of `map_column` over the row's fields, followed by
a newline), with `map_column` mapping null-set members to the empty string
and everything else to its text rendering; and a staged multi-byte Unicode
field decodes back exactly (round-trip) from the buffer. -/
theorem C6_staged_buffer (t : TaskSpec) (rows : List (List Value)) :
    (stageRows t rows).1 = stagedSpec t rows ∧
    decodeUtf8 ((stageRows sampleTask [[Value.str "éцү我", Value.int 0]]).1) =
      some "éцү我\t0\n" := by
  constructor
  · rw [stageRows_eq]
    rfl
  · decide

/-- Claim C3: every `touch` that returns normally has first ensured the marker
table exists (`create_marker_table`: fresh connection + DDL), then issued
exactly one marker `INSERT` carrying the target's `update_id` and `table`
(with the client timestamp exactly when `use_db_timestamps` is false),
then committed, then read back via `exists` on the same connection before
returning — and `exists` on the resulting state answers `true`. -/
theorem C3_touch_inserts_and_reads_back (t : VerticaTarget) (now : Nat)
    (db db' : DBState) (tr : List Event)
    (h : t.touch now db = (.ok db', tr)) :
    tr = [Event.freshConnection,
          Event.execDDL (create_marker_table_sql t.marker_table t.use_db_timestamps),
          Event.insertMarker t.update_id t.table
            (if t.use_db_timestamps then Timestamp.dbNow else Timestamp.client now),
          Event.commit, Event.selectMarker t.update_id] ∧
    (t.exists db').1 = .ok true := by
  unfold VerticaTarget.touch at h
  rcases hc : t.create_marker_table db with ⟨rc, evc⟩
  rw [hc] at h
  have hevc := create_marker_table_trace t db
  rw [hc] at hevc
  dsimp only at hevc
  cases rc with
  | error e => exact absurd h (by simp)
  | ok db1 =>
      dsimp only at h
      cases hm : db1.marker with
      | none =>
          simp only [insertMarkerRow, hm] at h
          exact absurd h (by simp)
      | some rows1 =>
          simp only [insertMarkerRow, hm] at h
          obtain ⟨b, hb⟩ :=
            exists_parts t { db1 with marker := some (rows1 ++
              [{ update_id := t.update_id, target_table := t.table,
                 inserted := if t.use_db_timestamps then Timestamp.dbNow
                   else Timestamp.client now }]) }
          have hex : (t.exists { db1 with marker := some (rows1 ++
              [{ update_id := t.update_id, target_table := t.table,
                 inserted := if t.use_db_timestamps then Timestamp.dbNow
                   else Timestamp.client now }]) }).1 = .ok true := by
            refine exists_of_mem t _ _ rfl ⟨_, List.mem_append_right rows1
              (List.mem_singleton_self _), rfl⟩
          have hbtrue : b = true := by
            have h2 : (Except.ok b : Except PyErr Bool) = .ok true := by
              rw [← hex, hb]
            exact (Except.ok.injEq _ _).mp h2
          rw [hb, hbtrue] at h
          simp only [if_true] at h
          have hdb' : db' = { db1 with marker := some (rows1 ++
              [{ update_id := t.update_id, target_table := t.table,
                 inserted := if t.use_db_timestamps then Timestamp.dbNow
                   else Timestamp.client now }]) } := by
            have := congrArg Prod.fst h
            simpa using this.symm
          have htr : tr = evc ++
              [Event.insertMarker t.update_id t.table
                (if t.use_db_timestamps then Timestamp.dbNow
                  else Timestamp.client now)] ++ [Event.commit] ++
              [Event.selectMarker t.update_id] := by
            have := congrArg Prod.snd h
            simpa using this.symm
          constructor
          · rw [htr, hevc]
            simp
          · rw [hdb']
            exact hex

/-- The database state after the C3 witness `touch`. -/
def touchedDB : DBState :=
  { marker := some [{ update_id := "update1", target_table := "test_table",
                      inserted := Timestamp.dbNow }],
    ddlFault := Option.none }

theorem C3_touch_inserts_and_reads_back_witness :
    ([Event.freshConnection,
      Event.execDDL (create_marker_table_sql "table_updates" true),
      Event.insertMarker "update1" "test_table"
        (if true then Timestamp.dbNow else Timestamp.client 5),
      Event.commit, Event.selectMarker "update1"] =
      [Event.freshConnection,
       Event.execDDL
         (create_marker_table_sql sampleTarget.marker_table
           sampleTarget.use_db_timestamps),
       Event.insertMarker sampleTarget.update_id sampleTarget.table
         (if sampleTarget.use_db_timestamps then Timestamp.dbNow
           else Timestamp.client 5),
       Event.commit, Event.selectMarker sampleTarget.update_id]) ∧
    (sampleTarget.exists touchedDB).1 = .ok true :=
  C3_touch_inserts_and_reads_back sampleTarget 5 emptyDB touchedDB
    [Event.freshConnection,
     Event.execDDL (create_marker_table_sql "table_updates" true),
     Event.insertMarker "update1" "test_table"
       (if true then Timestamp.dbNow else Timestamp.client 5),
     Event.commit, Event.selectMarker "update1"] (by decide)

/-- Claim C2: if the copy step fails with an error other than `MissingRelation`
— on the first attempt directly, or on the retry after a first-attempt
`MissingRelation` — that error is `run`'s result and the trace contains no
marker `INSERT` and no `commit`: `touch` is never reached. -/
theorem C2_failed_copy_leaves_no_marker (t : TaskSpec)
    (rows : List (List Value)) (orc : CopyOracle) (now : Nat) (db : DBState)
    (e : PyErr) (tgt : VerticaTarget)
    (hguard : ¬(t.table = "" ∨ t.columns = []))
    (hout : output t = .ok tgt)
    (hne : e ≠ PyErr.missingRelation)
    (hfail : (attemptBody t (stageRows t rows).1 orc 0).1 = .error e ∨
      ((attemptBody t (stageRows t rows).1 orc 0).1 = .error PyErr.missingRelation ∧
       orc.create_table = Option.none ∧
       (attemptBody t (stageRows t rows).1 orc 1).1 = .error e)) :
    (run t rows orc now db).1 = .error e ∧
    ∀ ev ∈ (run t rows orc now db).2, isMarkerWrite ev = false := by
  have hl : (attemptLoop t (stageRows t rows).1 orc).1 = .error e := by
    unfold attemptLoop
    rcases hb0 : attemptBody t (stageRows t rows).1 orc 0 with ⟨r0, ev0⟩
    rcases hfail with h0 | ⟨h0, hct, h1⟩
    · rw [hb0] at h0
      dsimp only at h0
      subst h0
      dsimp only
      rw [if_neg hne]
    · rw [hb0] at h0
      dsimp only at h0
      subst h0
      dsimp only
      rw [if_pos rfl, hct]
      rcases hb1 : attemptBody t (stageRows t rows).1 orc 1 with ⟨r1, ev1⟩
      rw [hb1] at h1
      dsimp only at h1
      subst h1
      rfl
  have hrun : run t rows orc now db =
      (.error e, Event.connect :: (stageRows t rows).2 ++ [Event.seekStart]
        ++ (attemptLoop t (stageRows t rows).1 orc).2) := by
    unfold run
    rw [if_neg hguard, hout]
    dsimp only
    rcases hl2 : attemptLoop t (stageRows t rows).1 orc with ⟨rl, evl⟩
    rw [hl2] at hl
    dsimp only at hl
    subst hl
    rfl
  rw [hrun]
  refine ⟨rfl, ?_⟩
  intro ev hev
  simp only [List.cons_append, List.mem_cons, List.mem_append,
    List.mem_singleton, List.not_mem_nil, or_false] at hev
  rcases hev with rfl | (hev | rfl) | hev
  · rfl
  · exact stageRows_no_marker t rows ev hev
  · rfl
  · exact attemptLoop_no_marker t (stageRows t rows).1 orc ev hev

theorem C2_failed_copy_leaves_no_marker_witness :
    ((run sampleTask [[Value.str "x"]]
        { allOkOracle with copy := fun _ => some (PyErr.dbOther 3) }
        0 emptyDB).1 = .error (PyErr.dbOther 3) ∧
      ∀ ev ∈ (run sampleTask [[Value.str "x"]]
        { allOkOracle with copy := fun _ => some (PyErr.dbOther 3) }
        0 emptyDB).2, isMarkerWrite ev = false) :=
  C2_failed_copy_leaves_no_marker sampleTask [[Value.str "x"]]
    { allOkOracle with copy := fun _ => some (PyErr.dbOther 3) }
    0 emptyDB (PyErr.dbOther 3) sampleTarget (by decide) (by decide)
    (by decide) (Or.inl (by decide))

/-- A task whose `columns` first element is a 3-tuple, violating the
documented shape. -/
def badColsTask : TaskSpec :=
  { sampleTask with columns := [Col.tup ["a", "b", "c"]] }

/-- Claim C7 as stated is false: with a malformed `columns` (first element a
3-tuple), the load does raise the configuration error, but only when the
copy is attempted — after the connection was opened and the row was staged
(`connect` and a `stageRow` event precede it in the trace), not before any
staging or I/O. -/
theorem C7_counterexample :
    (run badColsTask [[Value.str "x"]] allOkOracle 0 emptyDB).1 =
      .error (.exc ("columns must consist of column strings or " ++
        "(column string, type string) tuples (was ('a', 'b', 'c') ...)")) ∧
    Event.connect ∈ (run badColsTask [[Value.str "x"]] allOkOracle 0 emptyDB).2 ∧
    Event.stageRow [120, 10] ∈
      (run badColsTask [[Value.str "x"]] allOkOracle 0 emptyDB).2 := by
  refine ⟨by decide, by decide, by decide⟩

/-- Claim C7 (amended): for every `columns` whose first element is a tuple that
is not a 2-element pair, the load raises the configuration error when the
copy is first attempted — after staging and connecting — and before any
`COPY` statement is executed and before any marker write. -/
theorem C7_bad_columns_shape (t : TaskSpec) (rows : List (List Value))
    (orc : CopyOracle) (now : Nat) (db : DBState) (l : List String)
    (tgt : VerticaTarget)
    (hguard : ¬(t.table = "" ∨ t.columns = []))
    (hout : output t = .ok tgt)
    (hcol : t.columns.head? = some (Col.tup l)) (hlen : ¬l.length = 2)
    (hic0 : orc.init_copy 0 = Option.none) :
    (run t rows orc now db).1 =
      .error (.exc ("columns must consist of column strings or " ++
        "(column string, type string) tuples (was " ++ pyReprCol (Col.tup l)
        ++ " ...)")) ∧
    (∀ ev ∈ (run t rows orc now db).2, isExecCopyEvent ev = false) ∧
    (∀ ev ∈ (run t rows orc now db).2, isMarkerWrite ev = false) := by
  have hnames : copyNames t.columns =
      .error (.exc ("columns must consist of column strings or " ++
        "(column string, type string) tuples (was " ++ pyReprCol (Col.tup l)
        ++ " ...)")) := by
    unfold copyNames
    rw [hcol]
    dsimp only
    rw [if_neg hlen]
  have hb0 : attemptBody t (stageRows t rows).1 orc 0 =
      (.error (.exc ("columns must consist of column strings or " ++
        "(column string, type string) tuples (was " ++ pyReprCol (Col.tup l)
        ++ " ...)")), [Event.newCursor, Event.initCopy]) := by
    unfold attemptBody copyCall
    rw [hic0, hnames]
    rfl
  have hl : attemptLoop t (stageRows t rows).1 orc =
      (.error (.exc ("columns must consist of column strings or " ++
        "(column string, type string) tuples (was " ++ pyReprCol (Col.tup l)
        ++ " ...)")), [Event.newCursor, Event.initCopy]) := by
    unfold attemptLoop
    rw [hb0]
    dsimp only
    rw [if_neg (by intro hcontra; cases hcontra)]
  have hrun : run t rows orc now db =
      (.error (.exc ("columns must consist of column strings or " ++
        "(column string, type string) tuples (was " ++ pyReprCol (Col.tup l)
        ++ " ...)")), Event.connect :: (stageRows t rows).2
          ++ [Event.seekStart] ++ [Event.newCursor, Event.initCopy]) := by
    unfold run
    rw [if_neg hguard, hout]
    dsimp only
    rw [hl]
  rw [hrun]
  refine ⟨rfl, ?_, ?_⟩ <;> intro ev hev <;>
    simp only [List.cons_append, List.mem_cons, List.mem_append,
      List.mem_singleton, List.not_mem_nil, or_false] at hev <;>
    rcases hev with rfl | (hev | rfl) | rfl | rfl
  · rfl
  · rw [stageRows_eq] at hev
    simp only [List.mem_map] at hev
    obtain ⟨r, _, rfl⟩ := hev
    rfl
  · rfl
  · rfl
  · rfl
  · rfl
  · exact stageRows_no_marker t rows ev hev
  · rfl
  · rfl
  · rfl

theorem C7_bad_columns_shape_witness :
    ((run badColsTask [[Value.str "x"]] allOkOracle 0 emptyDB).1 =
      .error (.exc ("columns must consist of column strings or " ++
        "(column string, type string) tuples (was "
        ++ pyReprCol (Col.tup ["a", "b", "c"]) ++ " ...)")) ∧
     (∀ ev ∈ (run badColsTask [[Value.str "x"]] allOkOracle 0 emptyDB).2,
        isExecCopyEvent ev = false) ∧
     (∀ ev ∈ (run badColsTask [[Value.str "x"]] allOkOracle 0 emptyDB).2,
        isMarkerWrite ev = false)) :=
  C7_bad_columns_shape badColsTask [[Value.str "x"]] allOkOracle 0 emptyDB
    ["a", "b", "c"] sampleTarget (by decide) (by decide) (by decide)
    (by decide) (by decide)

/-- When no DDL fault is injected, `touch` always succeeds (creating the
marker table if needed, treating "already exists" as success), emitting
its full five-event trace, and `exists` holds afterwards. -/
theorem touch_ok_of_no_fault (t : VerticaTarget) (now : Nat) (db : DBState)
    (hf : db.ddlFault = Option.none) :
    ∃ db', t.touch now db =
      (.ok db',
       [Event.freshConnection,
        Event.execDDL (create_marker_table_sql t.marker_table t.use_db_timestamps),
        Event.insertMarker t.update_id t.table
          (if t.use_db_timestamps then Timestamp.dbNow else Timestamp.client now),
        Event.commit, Event.selectMarker t.update_id]) ∧
      (t.exists db').1 = .ok true := by
  have hcre : ∃ db1 rows1, t.create_marker_table db =
      (.ok db1,
       [Event.freshConnection,
        Event.execDDL (create_marker_table_sql t.marker_table t.use_db_timestamps)]) ∧
      db1.marker = some rows1 := by
    cases hm : db.marker with
    | none =>
        refine ⟨{ db with marker := some [] }, [], ?_, rfl⟩
        unfold VerticaTarget.create_marker_table execCreateMarker
        rw [hf, hm]
    | some rows =>
        refine ⟨db, rows, ?_, hm⟩
        unfold VerticaTarget.create_marker_table execCreateMarker
        rw [hf, hm]
  obtain ⟨db1, rows1, hcre1, hm1⟩ := hcre
  unfold VerticaTarget.touch
  rw [hcre1]
  dsimp only
  simp only [insertMarkerRow, hm1]
  obtain ⟨b, hb⟩ :=
    exists_parts t { db1 with marker := some (rows1 ++
      [{ update_id := t.update_id, target_table := t.table,
         inserted := if t.use_db_timestamps then Timestamp.dbNow
           else Timestamp.client now }]) }
  have hex : (t.exists { db1 with marker := some (rows1 ++
      [{ update_id := t.update_id, target_table := t.table,
         inserted := if t.use_db_timestamps then Timestamp.dbNow
           else Timestamp.client now }]) }).1 = .ok true :=
    exists_of_mem t _ _ rfl ⟨_, List.mem_append_right rows1
      (List.mem_singleton_self _), rfl⟩
  have hbtrue : b = true := by
    have h2 : (Except.ok b : Except PyErr Bool) = .ok true := by
      rw [← hex, hb]
    exact (Except.ok.injEq _ _).mp h2
  rw [hb, hbtrue]
  simp only [if_true]
  exact ⟨_, rfl, hex⟩

/-- Claim C8: a load with an empty row source still proceeds exactly like a
non-empty one — it stages an empty buffer (no `stageRow` events), issues
the `COPY` of that empty buffer, and records the marker row via `touch`,
and `exists` holds on the resulting state. -/
theorem C8_empty_rows_full_load (t : TaskSpec) (orc : CopyOracle) (now : Nat)
    (db : DBState) (names : List String) (tgt : VerticaTarget)
    (hguard : ¬(t.table = "" ∨ t.columns = []))
    (hout : output t = .ok tgt)
    (hnames : copyNames t.columns = .ok names)
    (hic0 : orc.init_copy 0 = Option.none)
    (hcp0 : orc.copy 0 = Option.none)
    (hpc0 : orc.post_copy 0 = Option.none)
    (hf : db.ddlFault = Option.none) :
    ∃ db', run t [] orc now db =
      (.ok db',
       [Event.connect, Event.seekStart, Event.newCursor, Event.initCopy,
        Event.execCopy (copySql t names) [], Event.postCopy,
        Event.freshConnection,
        Event.execDDL (create_marker_table_sql tgt.marker_table tgt.use_db_timestamps),
        Event.insertMarker tgt.update_id tgt.table
          (if tgt.use_db_timestamps then Timestamp.dbNow else Timestamp.client now),
        Event.commit, Event.selectMarker tgt.update_id]) ∧
      (tgt.exists db').1 = .ok true := by
  have hb0 : attemptBody t [] orc 0 =
      (.ok (), [Event.newCursor, Event.initCopy,
        Event.execCopy (copySql t names) [], Event.postCopy]) := by
    unfold attemptBody copyCall
    rw [hic0, hnames, hcp0, hpc0]
    rfl
  have hl : attemptLoop t [] orc =
      (.ok (), [Event.newCursor, Event.initCopy,
        Event.execCopy (copySql t names) [], Event.postCopy]) := by
    unfold attemptLoop
    rw [hb0]
  obtain ⟨db', htouch, hex⟩ := touch_ok_of_no_fault tgt now db hf
  refine ⟨db', ?_, hex⟩
  unfold run
  rw [if_neg hguard, hout]
  dsimp only
  have hstage : stageRows t [] = ([], []) := rfl
  rw [hstage]
  dsimp only
  rw [hl, htouch]
  rfl

theorem C8_empty_rows_full_load_witness :
    ∃ db', run sampleTask [] allOkOracle 3 emptyDB =
      (.ok db',
       [Event.connect, Event.seekStart, Event.newCursor, Event.initCopy,
        Event.execCopy (copySql sampleTask ["test_text", "test_int"]) [],
        Event.postCopy, Event.freshConnection,
        Event.execDDL (create_marker_table_sql sampleTarget.marker_table
          sampleTarget.use_db_timestamps),
        Event.insertMarker sampleTarget.update_id sampleTarget.table
          (if sampleTarget.use_db_timestamps then Timestamp.dbNow
            else Timestamp.client 3),
        Event.commit, Event.selectMarker sampleTarget.update_id]) ∧
      (sampleTarget.exists db').1 = .ok true :=
  C8_empty_rows_full_load sampleTask allOkOracle 3 emptyDB
    ["test_text", "test_int"] sampleTarget (by decide) (by decide)
    (by decide) (by decide) (by decide) (by decide) (by decide)

/-- `countP` vanishes on the staging events for any predicate that ignores
`stageRow`. -/
theorem countP_stage_zero (t : TaskSpec) (rows : List (List Value))
    {p : Event → Bool} (hp : ∀ b, p (Event.stageRow b) = false) :
    ((stageRows t rows).2).countP p = 0 := by
  refine countP_zero_of_forall ?_
  intro e he
  rw [stageRows_eq] at he
  simp only [List.mem_map] at he
  obtain ⟨r, _, rfl⟩ := he
  exact hp _

/-- `countP` vanishes on a `touch` trace for any predicate that ignores
the five marker-store event kinds. -/
theorem countP_touch_zero (tg : VerticaTarget) (now : Nat) (db : DBState)
    {p : Event → Bool}
    (h1 : p Event.freshConnection = false)
    (h2 : ∀ s, p (Event.execDDL s) = false)
    (h3 : ∀ u tb ts, p (Event.insertMarker u tb ts) = false)
    (h4 : p Event.commit = false)
    (h5 : ∀ u, p (Event.selectMarker u) = false) :
    ((tg.touch now db).2).countP p = 0 := by
  refine countP_zero_of_forall ?_
  intro e he
  rcases touch_trace_cases tg now db with h | h | h <;>
    rw [h, create_marker_table_trace] at he <;>
    simp only [List.mem_append, List.mem_cons, List.not_mem_nil, or_false] at he
  · rcases he with rfl | rfl
    · exact h1
    · exact h2 _
  · rcases he with (rfl | rfl) | rfl
    · exact h1
    · exact h2 _
    · exact h3 _ _ _
  · rcases he with (rfl | rfl) | rfl | rfl | rfl
    · exact h1
    · exact h2 _
    · exact h3 _ _ _
    · exact h4
    · exact h5 _

/-- Once the guard passes and `output()` succeeds, `run`'s trace is the
connect, the staging events, the rewind, the attempt loop's events, and —
only when the loop succeeded — the `touch` events. -/
theorem run_trace (t : TaskSpec) (rows : List (List Value)) (orc : CopyOracle)
    (now : Nat) (db : DBState) (tgt : VerticaTarget)
    (hguard : ¬(t.table = "" ∨ t.columns = []))
    (hout : output t = .ok tgt) :
    (run t rows orc now db).2 =
      Event.connect :: (stageRows t rows).2 ++ [Event.seekStart]
        ++ (attemptLoop t (stageRows t rows).1 orc).2
        ++ (match (attemptLoop t (stageRows t rows).1 orc).1 with
            | .ok _ => (tgt.touch now db).2
            | .error _ => []) := by
  unfold run
  rw [if_neg hguard, hout]
  dsimp only
  rcases hl : attemptLoop t (stageRows t rows).1 orc with ⟨rl, evl⟩
  cases rl with
  | ok u =>
      rcases htc : tgt.touch now db with ⟨rt, evt⟩
      cases rt <;> simp
  | error e => simp

/-- When the attempt loop raises, `run` raises the same error. -/
theorem run_result_error (t : TaskSpec) (rows : List (List Value))
    (orc : CopyOracle) (now : Nat) (db : DBState) (tgt : VerticaTarget)
    (e : PyErr)
    (hguard : ¬(t.table = "" ∨ t.columns = []))
    (hout : output t = .ok tgt)
    (he : (attemptLoop t (stageRows t rows).1 orc).1 = .error e) :
    (run t rows orc now db).1 = .error e := by
  unfold run
  rw [if_neg hguard, hout]
  dsimp only
  rcases hl : attemptLoop t (stageRows t rows).1 orc with ⟨rl, evl⟩
  rw [hl] at he
  dsimp only at he
  subst he
  rfl

/-- Claim C1: when the first copy attempt raises `MissingRelation` and
`create_table` succeeds, `run` resets the connection and invokes the
caller-supplied `create_table` exactly once, and retries the whole attempt
body exactly once — two cursor/`init_copy` invocations and two issued
`COPY`s in total, with `post_copy` reached on the retry exactly when the
retried copy returns; and when the retried copy raises `MissingRelation`
again, that error propagates as `run`'s result (with still only one
table creation and two copies — no further retry). -/
theorem C1_missing_relation_retry (t : TaskSpec) (rows : List (List Value))
    (orc : CopyOracle) (now : Nat) (db : DBState) (names : List String)
    (tgt : VerticaTarget)
    (hguard : ¬(t.table = "" ∨ t.columns = []))
    (hout : output t = .ok tgt)
    (hnames : copyNames t.columns = .ok names)
    (hic0 : orc.init_copy 0 = Option.none)
    (hcp0 : orc.copy 0 = some PyErr.missingRelation)
    (hct : orc.create_table = Option.none)
    (hic1 : orc.init_copy 1 = Option.none) :
    ((run t rows orc now db).2.countP isResetEvent = 1 ∧
     (run t rows orc now db).2.countP isCreateTableEvent = 1 ∧
     (run t rows orc now db).2.countP isInitCopyEvent = 2 ∧
     (run t rows orc now db).2.countP isExecCopyEvent = 2) ∧
    (orc.copy 1 = Option.none →
      (run t rows orc now db).2.countP isPostCopyEvent = 1) ∧
    (orc.copy 1 = some PyErr.missingRelation →
      (run t rows orc now db).1 = .error PyErr.missingRelation) := by
  have htr := run_trace t rows orc now db tgt hguard hout
  have hb0 : attemptBody t (stageRows t rows).1 orc 0 =
      (.error PyErr.missingRelation,
       [Event.newCursor, Event.initCopy,
        Event.execCopy (copySql t names) (stageRows t rows).1]) := by
    unfold attemptBody copyCall
    rw [hic0, hnames, hcp0]
    rfl
  have hs1 : ((stageRows t rows).2).countP isResetEvent = 0 :=
    countP_stage_zero t rows (fun b => rfl)
  have hs2 : ((stageRows t rows).2).countP isCreateTableEvent = 0 :=
    countP_stage_zero t rows (fun b => rfl)
  have hs3 : ((stageRows t rows).2).countP isInitCopyEvent = 0 :=
    countP_stage_zero t rows (fun b => rfl)
  have hs4 : ((stageRows t rows).2).countP isExecCopyEvent = 0 :=
    countP_stage_zero t rows (fun b => rfl)
  have hs5 : ((stageRows t rows).2).countP isPostCopyEvent = 0 :=
    countP_stage_zero t rows (fun b => rfl)
  have ht1 : ((tgt.touch now db).2).countP isResetEvent = 0 :=
    countP_touch_zero tgt now db rfl (fun s => rfl) (fun u tb ts => rfl) rfl
      (fun u => rfl)
  have ht2 : ((tgt.touch now db).2).countP isCreateTableEvent = 0 :=
    countP_touch_zero tgt now db rfl (fun s => rfl) (fun u tb ts => rfl) rfl
      (fun u => rfl)
  have ht3 : ((tgt.touch now db).2).countP isInitCopyEvent = 0 :=
    countP_touch_zero tgt now db rfl (fun s => rfl) (fun u tb ts => rfl) rfl
      (fun u => rfl)
  have ht4 : ((tgt.touch now db).2).countP isExecCopyEvent = 0 :=
    countP_touch_zero tgt now db rfl (fun s => rfl) (fun u tb ts => rfl) rfl
      (fun u => rfl)
  have ht5 : ((tgt.touch now db).2).countP isPostCopyEvent = 0 :=
    countP_touch_zero tgt now db rfl (fun s => rfl) (fun u tb ts => rfl) rfl
      (fun u => rfl)
  rcases hcp1 : orc.copy 1 with _ | e1
  · rcases hpc1 : orc.post_copy 1 with _ | e2
    · -- retried copy and post_copy both succeed
      have hb1 : attemptBody t (stageRows t rows).1 orc 1 =
          (.ok (), [Event.newCursor, Event.initCopy,
            Event.execCopy (copySql t names) (stageRows t rows).1,
            Event.postCopy]) := by
        unfold attemptBody copyCall
        rw [hic1, hnames, hcp1, hpc1]
        rfl
      have hl : attemptLoop t (stageRows t rows).1 orc =
          (.ok (), [Event.newCursor, Event.initCopy,
            Event.execCopy (copySql t names) (stageRows t rows).1,
            Event.resetConnection, Event.createTable,
            Event.newCursor, Event.initCopy,
            Event.execCopy (copySql t names) (stageRows t rows).1,
            Event.postCopy]) := by
        unfold attemptLoop
        rw [hb0]
        dsimp only
        rw [if_pos rfl, hct, hb1]
        rfl
      rw [hl] at htr
      dsimp only at htr
      refine ⟨⟨?_, ?_, ?_, ?_⟩, fun _ => ?_, fun hc => ?_⟩
      · rw [htr]
        simp [List.countP_cons, List.countP_append, hs1, ht1, isResetEvent]
      · rw [htr]
        simp [List.countP_cons, List.countP_append, hs2, ht2,
          isCreateTableEvent]
      · rw [htr]
        simp [List.countP_cons, List.countP_append, hs3, ht3, isInitCopyEvent]
      · rw [htr]
        simp [List.countP_cons, List.countP_append, hs4, ht4, isExecCopyEvent]
      · rw [htr]
        simp [List.countP_cons, List.countP_append, hs5, ht5, isPostCopyEvent]
      · exact Option.noConfusion hc
    · -- retried copy succeeds, post_copy raises: still one creation, two copies
      have hb1 : attemptBody t (stageRows t rows).1 orc 1 =
          (.error e2, [Event.newCursor, Event.initCopy,
            Event.execCopy (copySql t names) (stageRows t rows).1,
            Event.postCopy]) := by
        unfold attemptBody copyCall
        rw [hic1, hnames, hcp1, hpc1]
        rfl
      have hl : attemptLoop t (stageRows t rows).1 orc =
          (.error e2, [Event.newCursor, Event.initCopy,
            Event.execCopy (copySql t names) (stageRows t rows).1,
            Event.resetConnection, Event.createTable,
            Event.newCursor, Event.initCopy,
            Event.execCopy (copySql t names) (stageRows t rows).1,
            Event.postCopy]) := by
        unfold attemptLoop
        rw [hb0]
        dsimp only
        rw [if_pos rfl, hct, hb1]
        rfl
      rw [hl] at htr
      dsimp only at htr
      refine ⟨⟨?_, ?_, ?_, ?_⟩, fun _ => ?_, fun hc => ?_⟩
      · rw [htr]
        simp [List.countP_cons, List.countP_append, hs1, isResetEvent]
      · rw [htr]
        simp [List.countP_cons, List.countP_append, hs2, isCreateTableEvent]
      · rw [htr]
        simp [List.countP_cons, List.countP_append, hs3, isInitCopyEvent]
      · rw [htr]
        simp [List.countP_cons, List.countP_append, hs4, isExecCopyEvent]
      · rw [htr]
        simp [List.countP_cons, List.countP_append, hs5, isPostCopyEvent]
      · exact Option.noConfusion hc
  · -- retried copy raises again: the error propagates, no further attempt
    have hb1 : attemptBody t (stageRows t rows).1 orc 1 =
        (.error e1, [Event.newCursor, Event.initCopy,
          Event.execCopy (copySql t names) (stageRows t rows).1]) := by
      unfold attemptBody copyCall
      rw [hic1, hnames, hcp1]
      rfl
    have hl : attemptLoop t (stageRows t rows).1 orc =
        (.error e1, [Event.newCursor, Event.initCopy,
          Event.execCopy (copySql t names) (stageRows t rows).1,
          Event.resetConnection, Event.createTable,
          Event.newCursor, Event.initCopy,
          Event.execCopy (copySql t names) (stageRows t rows).1]) := by
      unfold attemptLoop
      rw [hb0]
      dsimp only
      rw [if_pos rfl, hct, hb1]
      rfl
    rw [hl] at htr
    dsimp only at htr
    refine ⟨⟨?_, ?_, ?_, ?_⟩, fun hc => ?_, fun hc => ?_⟩
    · rw [htr]
      simp [List.countP_cons, List.countP_append, hs1, isResetEvent]
    · rw [htr]
      simp [List.countP_cons, List.countP_append, hs2, isCreateTableEvent]
    · rw [htr]
      simp [List.countP_cons, List.countP_append, hs3, isInitCopyEvent]
    · rw [htr]
      simp [List.countP_cons, List.countP_append, hs4, isExecCopyEvent]
    · exact Option.noConfusion hc
    · have he1 := Option.some.inj hc
      subst he1
      exact run_result_error t rows orc now db tgt PyErr.missingRelation
        hguard hout (by rw [hl])

theorem C1_missing_relation_retry_witness :
    (((run sampleTask [[Value.str "x"]] alwaysMissingOracle 0 emptyDB).2.countP
        isResetEvent = 1 ∧
      (run sampleTask [[Value.str "x"]] alwaysMissingOracle 0 emptyDB).2.countP
        isCreateTableEvent = 1 ∧
      (run sampleTask [[Value.str "x"]] alwaysMissingOracle 0 emptyDB).2.countP
        isInitCopyEvent = 2 ∧
      (run sampleTask [[Value.str "x"]] alwaysMissingOracle 0 emptyDB).2.countP
        isExecCopyEvent = 2) ∧
     (alwaysMissingOracle.copy 1 = Option.none →
      (run sampleTask [[Value.str "x"]] alwaysMissingOracle 0 emptyDB).2.countP
        isPostCopyEvent = 1) ∧
     (alwaysMissingOracle.copy 1 = some PyErr.missingRelation →
      (run sampleTask [[Value.str "x"]] alwaysMissingOracle 0 emptyDB).1 =
        .error PyErr.missingRelation)) :=
  C1_missing_relation_retry sampleTask [[Value.str "x"]] alwaysMissingOracle
    0 emptyDB ["test_text", "test_int"] sampleTarget (by decide) (by decide)
    (by decide) (by decide) (by decide) (by decide) (by decide)

end Vertica
